import Mathlib

/-
Shallow embedding of the session/authentication core of the lknpd-nalog
API client (src/NalogApi.ts).  Pure TypeScript logic is translated into
executable Lean definitions; the host runtime (fetch, JSON.parse, the
file system, Date) is modelled by explicit parameters:
  * an HTTP response is an HttpResp record (ok flag, status, body text);
  * JSON.parse is a parameter of type String → Option Json, where none
    models a thrown SyntaxError;
  * Date values are their epoch-millisecond numbers (Int);
  * thrown exceptions are Except errors;
  * the token-exchange endpoints are an environment mapping each exchange
    to either a decoded token payload or the normalized error produced by
    the request pipeline.
-/

namespace LknpdNalog

/-- JSON values as produced by the host JSON.parse. -/
inductive Json where
  | null
  | bool (b : Bool)
  | num (n : Int)
  | str (s : String)
  | arr (xs : List Json)
  | obj (fields : List (String × Json))
deriving Repr

/-- Property access `v.k` on a decoded JSON value: only objects have
fields; on every other value (or an absent key) the result is undefined,
modelled as none. -/
def Json.getField : Json → String → Option Json
  | .obj fields, k => fields.lookup k
  | _, _ => none

/-- JavaScript truthiness of a JSON value: null, false, 0 and the empty
string are falsy; objects and arrays are always truthy. -/
def Json.truthy : Json → Bool
  | .null => false
  | .bool b => b
  | .num n => n != 0
  | .str s => !s.isEmpty
  | .arr _ => true
  | .obj _ => true

mutual

/-- JavaScript string coercion of a JSON value (as applied by the Error
constructor to a non-string message). -/
def Json.jsString : Json → String
  | .null => "null"
  | .bool b => toString b
  | .num n => toString n
  | .str s => s
  | .obj _ => "[object Object]"
  | .arr xs => Json.jsStringList xs

/-- JavaScript Array toString: elements joined with commas, null elements
rendered as the empty string. -/
def Json.jsStringList : List Json → String
  | [] => ""
  | [.null] => ""
  | [j] => Json.jsString j
  | .null :: rest => "," ++ Json.jsStringList rest
  | j :: rest => Json.jsString j ++ "," ++ Json.jsStringList rest

end

/-- The value the request pipeline binds to `data`: either a decoded JSON
value or, when the body text does not parse, the raw text itself. -/
inductive Decoded where
  | json (j : Json)
  | raw (s : String)
deriving Repr

/-- Property access on `data` (which is `unknown` in the source): a raw
string has no `code` or `message` properties. -/
def Decoded.getField : Decoded → String → Option Json
  | .json j, k => j.getField k
  | .raw _, _ => none

/-- The typed error of the client (class NalogApiError): a message, an
optional machine-readable code and the raw decoded response payload.
code and response are whatever values `errorData?.code` and `data` held,
hence Json-typed; none models undefined. -/
structure NalogApiError where
  message : String
  code : Option Json
  response : Option Decoded
deriving Repr

/-- A transport-level HTTP response as seen by the client: the ok flag,
the numeric status and the full body text. -/
structure HttpResp where
  ok : Bool
  status : Nat
  text : String
deriving Repr

/-- Body decoding of the request pipeline:
`data = text ? JSON.parse(text) : null` with the catch block falling back
to the raw text.  An empty body decodes to null; a parse failure yields
the raw text. -/
def decodeBody (parse : String → Option Json) (text : String) : Decoded :=
  if text = "" then .json .null
  else
    match parse text with
    | some j => .json j
    | none => .raw text

/-- The fallback error message `HTTP Error: <status>`. -/
def httpErrorMsg (status : Nat) : String :=
  "HTTP Error: " ++ toString status

/-- The message chosen for a failed response:
`errorData?.message || fallback`.  A truthy message field is used
(string-coerced); an absent or falsy one falls back to the generic
status-derived message. -/
def errMessage (d : Decoded) (status : Nat) : String :=
  match d.getField "message" with
  | some m => if m.truthy then m.jsString else httpErrorMsg status
  | none => httpErrorMsg status

/-- Response handling of the request pipeline (the part of request() after
the fetch): read the body text, decode it, and either return the decoded
data (ok) or throw the normalized NalogApiError built from the decoded
code/message fields with the decoded body as diagnostic payload. -/
def handleResponse (parse : String → Option Json) (resp : HttpResp) :
    Except NalogApiError Decoded :=
  let data := decodeBody parse resp.text
  if resp.ok then .ok data
  else .error
    { message := errMessage data resp.status
      code := data.getField "code"
      response := some data }

/-- JavaScript truthiness of a string-or-null value (null and the empty
string are falsy). -/
def strTruthy : Option String → Bool
  | none => false
  | some s => !s.isEmpty

/-- The in-memory Session State (field authState of the client):
access token, refresh token, expiry and the subject identifier (inn).
The expiry Date is modelled by its epoch-millisecond value. -/
structure AuthState where
  accessToken : Option String
  refreshToken : Option String
  tokenExpireIn : Option Int
  inn : Option String
deriving Repr, DecidableEq

/-- The initial value of authState: every field null. -/
def emptyAuthState : AuthState :=
  { accessToken := none, refreshToken := none, tokenExpireIn := none, inn := none }

/-- The configured Credential Exchange Parameters (field authParams). -/
structure AuthParams where
  inn : Option String
  password : Option String
  phone : Option String
deriving Repr, DecidableEq

/-- A successfully decoded token-exchange response body.  tokenExpireIn is
the epoch value of the returned ISO timestamp (the source applies
new Date(response.tokenExpireIn)); profileInn models response.profile?.inn
(none when the profile or its inn is absent). -/
structure TokenResponse where
  token : String
  refreshToken : String
  tokenExpireIn : Int
  profileInn : Option String
deriving Repr, DecidableEq

/-- The distinct token-exchange requests performed through the request
pipeline, identified by endpoint and credential payload (the device info
sent along is the immutable per-client identity and is omitted). -/
inductive NetExchange where
  | lkfl (inn password : String)
  | tokenRefresh (refreshToken : String)
  | smsVerify (phone code challengeToken : String)
deriving Repr, DecidableEq

/-- Outcome of one token exchange: either the decoded token payload of a
success response, or the normalized NalogApiError thrown by the request
pipeline for it (whose construction from a raw response is handleResponse). -/
inductive ExchResult where
  | ok (tr : TokenResponse)
  | err (e : NalogApiError)

/-- The remote token endpoints, as a deterministic environment. -/
abbrev Env := NetExchange → ExchResult

/-- The Persisted Credential Record (interface SavedTokens).  The stored
tokenExpireIn ISO string is modelled by its parsed epoch value, none
standing for a value that does not parse to a valid date (an empty string
is serialized when the in-memory expiry is null). -/
structure SavedTokens where
  accessToken : String
  refreshToken : String
  tokenExpireIn : Option Int
  inn : Option String
  deviceId : String
  savedAt : Int
deriving Repr, DecidableEq

/-- What saveTokensToFile did: nothing (persistence disabled), a
successful overwrite with the given record, or a write failure that was
logged and swallowed. -/
inductive SaveOutcome where
  | disabled
  | written (record : SavedTokens)
  | failedLogged
deriving Repr, DecidableEq

/-- The record snapshot serialized by saveTokensToFile: null tokens become
empty strings, a null expiry becomes an empty (unparseable) string. -/
def mkSavedTokens (st : AuthState) (deviceId : String) (now : Int) : SavedTokens :=
  { accessToken := st.accessToken.getD ""
    refreshToken := st.refreshToken.getD ""
    tokenExpireIn := st.tokenExpireIn
    inn := st.inn
    deviceId := deviceId
    savedAt := now }

/-- saveTokensToFile: returns immediately when persistence is disabled;
otherwise writes the snapshot.  The try/catch around the write maps any
raised I/O error to a logged console.error — the method always returns
normally, which is why its result type carries no error case.  writeOk
models whether the file-system write raises. -/
def saveTokensToFile (saveToken writeOk : Bool) (st : AuthState)
    (deviceId : String) (now : Int) : SaveOutcome :=
  if !saveToken then .disabled
  else if writeOk then .written (mkSavedTokens st deviceId now)
  else .failedLogged

/-- Observable side effects of an operation, in order: network exchanges
performed and invocations of saveTokensToFile (with their outcome). -/
inductive Event where
  | net (x : NetExchange)
  | save (r : SaveOutcome)
deriving Repr, DecidableEq

/-- The network exchanges among a list of events. -/
def netEvents : List Event → List NetExchange
  | [] => []
  | .net x :: es => x :: netEvents es
  | .save _ :: es => netEvents es

/-- Whether a Credential Store save was triggered. -/
def saveTriggered : List Event → Bool
  | [] => false
  | .save _ :: _ => true
  | .net _ :: es => saveTriggered es

/-- The aspects of a client instance the authentication core reads and
writes: Session State, the configured credential parameters, the
persistence flag and the device identity. -/
structure Client where
  authState : AuthState
  authParams : AuthParams
  saveToken : Bool
  deviceId : String
deriving Repr, DecidableEq

/-- Result of a token-exchange operation: the returned token payload or
thrown error, the client after the call, and the side effects performed. -/
structure ExchangeOut where
  result : Except NalogApiError TokenResponse
  client : Client
  events : List Event

/-- normalizePhone: strip non-digits, then map a 11-digit 8-prefixed or
10-digit local number to the canonical 7-prefixed form. -/
def normalizePhone (phone : String) : String :=
  let digits := String.mk (phone.toList.filter Char.isDigit)
  if digits.startsWith "8" && digits.length == 11 then "7" ++ digits.drop 1
  else if digits.startsWith "7" && digits.length == 11 then digits
  else if digits.length == 10 then "7" ++ digits
  else digits

/-- refreshAccessToken: throws the typed no-refresh-token error when no
refresh token is held (null or empty string); otherwise performs the
auth/token exchange with the current refresh token; on success installs
the returned token, refresh token and expiry into Session State and
invokes saveTokensToFile; on failure rethrows the exchange error leaving
Session State untouched. -/
def refreshAccessToken (env : Env) (now : Int) (writeOk : Bool) (c : Client) :
    ExchangeOut :=
  if !strTruthy c.authState.refreshToken then
    { result := .error { message := "Refresh token отсутствует", code := none, response := none }
      client := c
      events := [] }
  else
    let rt := c.authState.refreshToken.getD ""
    match env (.tokenRefresh rt) with
    | .err e => { result := .error e, client := c, events := [.net (.tokenRefresh rt)] }
    | .ok tr =>
      let st := { c.authState with
        accessToken := some tr.token
        refreshToken := some tr.refreshToken
        tokenExpireIn := some tr.tokenExpireIn }
      let sv := saveTokensToFile c.saveToken writeOk st c.deviceId now
      { result := .ok tr
        client := { c with authState := st }
        events := [.net (.tokenRefresh rt), .save sv] }

/-- authByInn: performs the auth/lkfl exchange; on success installs the
returned triple, records the given inn as the subject identifier and
invokes saveTokensToFile. -/
def authByInn (env : Env) (now : Int) (writeOk : Bool) (c : Client)
    (inn password : String) : ExchangeOut :=
  match env (.lkfl inn password) with
  | .err e => { result := .error e, client := c, events := [.net (.lkfl inn password)] }
  | .ok tr =>
    let st := { c.authState with
      accessToken := some tr.token
      refreshToken := some tr.refreshToken
      tokenExpireIn := some tr.tokenExpireIn
      inn := some inn }
    let sv := saveTokensToFile c.saveToken writeOk st c.deviceId now
    { result := .ok tr
      client := { c with authState := st }
      events := [.net (.lkfl inn password), .save sv] }

/-- authByPhone: performs the auth/challenge/sms/verify exchange with the
normalized phone; on success installs the returned triple, copies the inn
from the returned profile when that is truthy, and invokes
saveTokensToFile. -/
def authByPhone (env : Env) (now : Int) (writeOk : Bool) (c : Client)
    (phone challengeToken code : String) : ExchangeOut :=
  let normalizedPhone := normalizePhone phone
  match env (.smsVerify normalizedPhone code challengeToken) with
  | .err e =>
    { result := .error e, client := c
      events := [.net (.smsVerify normalizedPhone code challengeToken)] }
  | .ok tr =>
    let st0 := { c.authState with
      accessToken := some tr.token
      refreshToken := some tr.refreshToken
      tokenExpireIn := some tr.tokenExpireIn }
    let st :=
      match tr.profileInn with
      | some i => if !i.isEmpty then { st0 with inn := some i } else st0
      | none => st0
    let sv := saveTokensToFile c.saveToken writeOk st c.deviceId now
    { result := .ok tr
      client := { c with authState := st }
      events := [.net (.smsVerify normalizedPhone code challengeToken), .save sv] }

/-- The guidance error message of auth() for phone-only configurations. -/
def authPhoneGuidanceMessage : String :=
  "Для авторизации по телефону используйте методы requestSmsCode() и authByPhone()"

/-- The no-credentials error message of auth(). -/
def authNoParamsMessage : String :=
  "Не указаны параметры авторизации. Укажите inn+password или phone"

/-- auth(): the top-level authenticate dispatch.  A held (truthy) refresh
token wins; else configured inn+password; else a configured phone yields
the guidance error; else the no-credentials error.  Both error paths
throw without touching Session State. -/
def auth (env : Env) (now : Int) (writeOk : Bool) (c : Client) : ExchangeOut :=
  if strTruthy c.authState.refreshToken then
    refreshAccessToken env now writeOk c
  else if strTruthy c.authParams.inn && strTruthy c.authParams.password then
    authByInn env now writeOk c (c.authParams.inn.getD "") (c.authParams.password.getD "")
  else if strTruthy c.authParams.phone then
    { result := .error { message := authPhoneGuidanceMessage, code := none, response := none }
      client := c
      events := [] }
  else
    { result := .error { message := authNoParamsMessage, code := none, response := none }
      client := c
      events := [] }

/-- Result of ensureValidToken: thrown error or unit, the client after the
call, and the side effects performed. -/
structure EnsureOut where
  result : Except NalogApiError Unit
  client : Client
  events : List Event

/-- ensureValidToken: with no (truthy) access token, run auth() and
return; with an access token and a recorded expiry, refresh when now is
within five minutes of (or past) the expiry; otherwise do nothing.  A
missing expiry skips the check entirely. -/
def ensureValidToken (env : Env) (now : Int) (writeOk : Bool) (c : Client) :
    EnsureOut :=
  if !strTruthy c.authState.accessToken then
    let o := auth env now writeOk c
    { result := o.result.map (fun _ => ()), client := o.client, events := o.events }
  else
    match c.authState.tokenExpireIn with
    | some expireTime =>
      if now ≥ expireTime - 5 * 60 * 1000 then
        let o := refreshAccessToken env now writeOk c
        { result := o.result.map (fun _ => ()), client := o.client, events := o.events }
      else
        { result := .ok (), client := c, events := [] }
    | none => { result := .ok (), client := c, events := [] }

/-- A failure mode of requestSmsCode as observable from JavaScript: the
typed NalogApiError, or the SyntaxError with which response.json()
rejects when the body is not well-formed JSON. -/
inductive JsFailure where
  | api (e : NalogApiError)
  | jsonSyntaxError

/-- Whether a requestSmsCode outcome failed with the typed error. -/
def isApiFailure : Except JsFailure (Option Json) → Bool
  | .error (.api _) => true
  | _ => false

/-- Result of requestSmsCode: the value of data.challengeToken (none when
the field is absent) or a failure, plus the normalized phone sent in the
challenge-start request body. -/
structure SmsStartOut where
  result : Except JsFailure (Option Json)
  sentPhone : String

/-- requestSmsCode: posts the normalized phone to the v2
auth/challenge/sms/start endpoint with a direct fetch (not through the
request pipeline) and calls response.json() BEFORE checking response.ok.
A body that does not parse as JSON therefore rejects with a SyntaxError
regardless of the status; only after a successful parse does a non-ok
status throw the normalized NalogApiError built from the parsed body. -/
def requestSmsCode (parse : String → Option Json) (resp : HttpResp)
    (phone : String) : SmsStartOut :=
  let normalizedPhone := normalizePhone phone
  match parse resp.text with
  | none => { result := .error .jsonSyntaxError, sentPhone := normalizedPhone }
  | some data =>
    if resp.ok then
      { result := .ok (data.getField "challengeToken"), sentPhone := normalizedPhone }
    else
      { result := .error (.api
          { message := errMessage (.json data) resp.status
            code := data.getField "code"
            response := some (.json data) })
        sentPhone := normalizedPhone }

/-- loadTokensFromFile: file is the parsed Persisted Credential Record,
none covering every early-degrading case (persistence location missing,
unreadable content, malformed JSON — all return false leaving state
untouched).  A record whose refreshToken is empty is likewise rejected.
Otherwise refresh token, inn and (always) the stored expiry are loaded,
the access token only when the stored expiry is strictly in the future,
and a truthy stored deviceId replaces the generated one.  An unparseable
stored expiry (an Invalid Date, whose comparisons are all false) is
modelled as an absent expiry. -/
def loadTokensFromFile (now : Int) (file : Option SavedTokens)
    (st : AuthState) (deviceId : String) : Bool × AuthState × String :=
  match file with
  | none => (false, st, deviceId)
  | some saved =>
    if saved.refreshToken.isEmpty then (false, st, deviceId)
    else
      let isAccessTokenValid :=
        match saved.tokenExpireIn with
        | some t => decide (t > now)
        | none => false
      let st1 := { st with
        refreshToken := some saved.refreshToken
        inn := saved.inn
        tokenExpireIn := saved.tokenExpireIn }
      let st2 :=
        if isAccessTokenValid then { st1 with accessToken := some saved.accessToken }
        else st1
      let dev := if !saved.deviceId.isEmpty then saved.deviceId else deviceId
      (true, st2, dev)

/-- setTokens: installs the access token unconditionally and the refresh
token and inn only when truthy (the explicit session-restore override). -/
def setTokens (c : Client) (accessToken : String) (refreshToken : Option String)
    (inn : Option String) : Client :=
  let st0 := { c.authState with accessToken := some accessToken }
  let st1 :=
    match refreshToken with
    | some r => if !r.isEmpty then { st0 with refreshToken := some r } else st0
    | none => st0
  let st2 :=
    match inn with
    | some i => if !i.isEmpty then { st1 with inn := some i } else st1
    | none => st1
  { c with authState := st2 }

/-- getAuthState: an immutable snapshot of Session State (the source
returns a shallow copy; Lean values are immutable, so the copy is the
value itself). -/
def getAuthState (c : Client) : AuthState := c.authState

/-- A finite stand-in for the host JSON.parse, agreeing with it on the
concrete body texts used in the witnesses and counterexamples below
(none models a thrown SyntaxError, as on every non-JSON text). -/
def demoParse : String → Option Json := fun s =>
  if s = "\x7b\"code\":\"AUTH_ERROR\",\"message\":\"Invalid credentials\"\x7d" then
    some (.obj [("code", .str "AUTH_ERROR"), ("message", .str "Invalid credentials")])
  else if s = "\x7b\"code\":\"X\",\"message\":\"\"\x7d" then
    some (.obj [("code", .str "X"), ("message", .str "")])
  else if s = "\x7b\"challengeToken\":\"CT\"\x7d" then
    some (.obj [("challengeToken", .str "CT")])
  else none

/-- A demo token payload returned by successful exchanges. -/
def demoTok : TokenResponse :=
  { token := "T1", refreshToken := "R1", tokenExpireIn := 7200000, profileInn := none }

/-- A demo environment on which every exchange succeeds with demoTok. -/
def demoEnv : Env := fun _ => .ok demoTok

/-- A demo environment on which every exchange fails with a remote
rejection. -/
def demoFailEnv : Env := fun _ =>
  .err { message := "Invalid credentials", code := some (.str "AUTH_ERROR"), response := none }

/-- Empty credential parameters. -/
def demoNoParams : AuthParams := { inn := none, password := none, phone := none }

/-- A client with no credentials configured and empty Session State. -/
def demoEmptyClient : Client :=
  { authState := emptyAuthState, authParams := demoNoParams
    saveToken := false, deviceId := "device-1" }

/-- A client configured with a phone number only. -/
def demoPhoneClient : Client :=
  { demoEmptyClient with authParams := { demoNoParams with phone := some "79991234567" } }

/-- A client configured with identifier and password only. -/
def demoInnClient : Client :=
  { demoEmptyClient with authParams :=
      { demoNoParams with inn := some "123456789012", password := some "secret" } }

/-- A client holding only a refresh token in Session State. -/
def demoRefreshClient : Client :=
  { demoEmptyClient with authState := { emptyAuthState with refreshToken := some "R" } }

/-- A client in the Authenticated-fresh state at time 0: expiry 1000
seconds away, well beyond the 5-minute threshold. -/
def demoFreshClient : Client :=
  { demoEmptyClient with authState :=
      { emptyAuthState with accessToken := some "tok", tokenExpireIn := some 1000000 } }

/-- A client whose Session State holds an EMPTY access token (installed
for instance by setTokens applied to an empty string), a refresh token
and no expiry. -/
def demoEmptyTokenClient : Client :=
  { demoEmptyClient with authState :=
      { emptyAuthState with accessToken := some "", refreshToken := some "R" } }

/-- A non-success response whose body decodes to a JSON object with an
empty message field. -/
def respEmptyMessage : HttpResp :=
  { ok := false, status := 500, text := "\x7b\"code\":\"X\",\"message\":\"\"\x7d" }

/-- A non-success response with a plain-text non-JSON body. -/
def respPlainText : HttpResp :=
  { ok := false, status := 502, text := "Bad Gateway" }

/-- C6: For every Request Pipeline call, the response body is read as
text and then decoded: text that parses as JSON yields the parsed value,
text that does not parse yields the raw text itself as the data value,
and an empty body yields a null result; on a success status each of
these outcomes is returned to the caller without error. -/
theorem response_decoding (parse : String → Option Json) (resp : HttpResp) (j : Json) :
    (resp.text = "" → decodeBody parse resp.text = .json .null)
    ∧ (resp.text ≠ "" → parse resp.text = some j → decodeBody parse resp.text = .json j)
    ∧ (resp.text ≠ "" → parse resp.text = none → decodeBody parse resp.text = .raw resp.text)
    ∧ (resp.ok = true → handleResponse parse resp = .ok (decodeBody parse resp.text))
    ∧ (resp.ok = true → resp.text = "" → handleResponse parse resp = .ok (.json .null)) := by
  refine ⟨?_, ?_, ?_, ?_, ?_⟩
  · intro h; simp [decodeBody, h]
  · intro h hp; simp [decodeBody, h, hp]
  · intro h hp; simp [decodeBody, h, hp]
  · intro h; simp [handleResponse, h]
  · intro h h0; simp [handleResponse, decodeBody, h, h0]

/-- Witness for C6: a success response with an empty body resolves to the
null result. -/
theorem response_decoding_witness :
    handleResponse demoParse { ok := true, status := 200, text := "" } = .ok (.json .null) :=
  (response_decoding demoParse { ok := true, status := 200, text := "" } .null).2.2.2.2 rfl rfl

/-- C5 counterexample: on a non-success response whose decoded body HAS a
message field (the empty string), the normalized error does NOT carry
that field as its message — it falls back to the generic status message,
because the source keeps a message field only when it is truthy
(errorData?.message || fallback). -/
theorem error_message_empty_counterexample :
    Decoded.getField (decodeBody demoParse respEmptyMessage.text) "message" = some (.str "")
    ∧ handleResponse demoParse respEmptyMessage = .error
        { message := "HTTP Error: 500"
          code := some (.str "X")
          response := some (.json (.obj [("code", .str "X"), ("message", .str "")])) }
    ∧ ("HTTP Error: 500" : String) ≠ "" := by
  refine ⟨rfl, rfl, by decide⟩

/-- C5 (amended): when a Request Pipeline call receives a non-success
status it throws a normalized error whose message is the decoded body
message field when that is present and non-empty (truthy), and otherwise
the generic status-derived message; whose code is the decoded code field
(absent when there is none); and whose diagnostic payload is the raw
decoded body — the raw text itself when the body is not JSON. -/
theorem error_normalization (parse : String → Option Json) (resp : HttpResp) (m : String) :
    (resp.ok = false → handleResponse parse resp = .error
      { message := errMessage (decodeBody parse resp.text) resp.status
        code := (decodeBody parse resp.text).getField "code"
        response := some (decodeBody parse resp.text) })
    ∧ ((decodeBody parse resp.text).getField "message" = some (.str m) → m ≠ "" →
        errMessage (decodeBody parse resp.text) resp.status = m)
    ∧ ((decodeBody parse resp.text).getField "message" = none →
        errMessage (decodeBody parse resp.text) resp.status = httpErrorMsg resp.status)
    ∧ ((decodeBody parse resp.text).getField "message" = some (.str "") →
        errMessage (decodeBody parse resp.text) resp.status = httpErrorMsg resp.status)
    ∧ (parse resp.text = none → resp.text ≠ "" →
        decodeBody parse resp.text = .raw resp.text
        ∧ (Decoded.raw resp.text).getField "code" = none) := by
  refine ⟨?_, ?_, ?_, ?_, ?_⟩
  · intro h; simp [handleResponse, h]
  · intro h hm
    simp [errMessage, h, Json.truthy, Json.jsString, String.isEmpty_iff, hm]
  · intro h; simp [errMessage, h]
  · intro h
    simp only [errMessage, h, Json.truthy]
    rfl
  · intro hp ht; simp [decodeBody, hp, ht, Decoded.getField]

/-- Witness for C5 (amended): end-to-end scenario 3 — a non-success
response with body code AUTH_ERROR and message Invalid credentials yields
an error carrying exactly that code and message; and scenario 4 — a
plain-text body yields the generic message with the raw text as payload. -/
theorem error_normalization_witness :
    handleResponse demoParse
        { ok := false, status := 422
          text := "\x7b\"code\":\"AUTH_ERROR\",\"message\":\"Invalid credentials\"\x7d" } =
      .error
        { message := "Invalid credentials"
          code := some (.str "AUTH_ERROR")
          response := some (.json (.obj
            [("code", .str "AUTH_ERROR"), ("message", .str "Invalid credentials")])) }
    ∧ handleResponse demoParse respPlainText =
      .error
        { message := "HTTP Error: 502"
          code := none
          response := some (.raw "Bad Gateway") } := by
  constructor
  · have h := (error_normalization demoParse
      { ok := false, status := 422
        text := "\x7b\"code\":\"AUTH_ERROR\",\"message\":\"Invalid credentials\"\x7d" }
      "Invalid credentials").1 rfl
    have hm := (error_normalization demoParse
      { ok := false, status := 422
        text := "\x7b\"code\":\"AUTH_ERROR\",\"message\":\"Invalid credentials\"\x7d" }
      "Invalid credentials").2.1 rfl (by decide)
    rw [h, hm]
    rfl
  · have h := (error_normalization demoParse respPlainText "").1 rfl
    rw [h]
    rfl

/-- refreshAccessToken performs exactly one network exchange (the
refresh) when a refresh token is held, and none otherwise. -/
theorem netEvents_refreshAccessToken (env : Env) (now : Int) (writeOk : Bool) (c : Client) :
    netEvents (refreshAccessToken env now writeOk c).events =
      if strTruthy c.authState.refreshToken then
        [NetExchange.tokenRefresh (c.authState.refreshToken.getD "")]
      else [] := by
  cases hrt : strTruthy c.authState.refreshToken <;>
    simp only [refreshAccessToken, hrt, Bool.not_true, Bool.not_false, if_true, if_false,
      Bool.false_eq_true, if_neg, reduceIte]
  · rfl
  · cases env (.tokenRefresh (c.authState.refreshToken.getD "")) <;> rfl

/-- authByInn performs exactly one network exchange (the login). -/
theorem netEvents_authByInn (env : Env) (now : Int) (writeOk : Bool) (c : Client)
    (i p : String) :
    netEvents (authByInn env now writeOk c i p).events = [NetExchange.lkfl i p] := by
  unfold authByInn
  cases env (.lkfl i p) <;> rfl

/-- authByPhone performs exactly one network exchange (the verification). -/
theorem netEvents_authByPhone (env : Env) (now : Int) (writeOk : Bool) (c : Client)
    (ph ch code : String) :
    netEvents (authByPhone env now writeOk c ph ch code).events =
      [NetExchange.smsVerify (normalizePhone ph) code ch] := by
  cases henv : env (.smsVerify (normalizePhone ph) code ch) <;>
    simp [authByPhone, henv, netEvents]

/-- auth performs at most one network exchange. -/
theorem netEvents_auth_le (env : Env) (now : Int) (writeOk : Bool) (c : Client) :
    (netEvents (auth env now writeOk c).events).length ≤ 1 := by
  unfold auth
  by_cases h1 : strTruthy c.authState.refreshToken = true
  · rw [if_pos h1, netEvents_refreshAccessToken, if_pos h1]
    exact le_refl 1
  · rw [if_neg h1]
    by_cases h2 : (strTruthy c.authParams.inn && strTruthy c.authParams.password) = true
    · rw [if_pos h2, netEvents_authByInn]
      exact le_refl 1
    · rw [if_neg h2]
      by_cases h3 : strTruthy c.authParams.phone = true
      · rw [if_pos h3]; exact Nat.zero_le 1
      · rw [if_neg h3]; exact Nat.zero_le 1

/-- ensureValidToken performs at most one network exchange. -/
theorem netEvents_ensureValidToken_le (env : Env) (now : Int) (writeOk : Bool) (c : Client) :
    (netEvents (ensureValidToken env now writeOk c).events).length ≤ 1 := by
  by_cases h1 : strTruthy c.authState.accessToken = true
  · cases he : c.authState.tokenExpireIn with
    | none => simp [ensureValidToken, h1, he, netEvents]
    | some e =>
      by_cases h2 : now ≥ e - 5 * 60 * 1000
      · simp only [ensureValidToken, h1, he, h2, Bool.not_true, Bool.false_eq_true,
          if_false, if_true, ge_iff_le]
        rw [netEvents_refreshAccessToken]
        cases strTruthy c.authState.refreshToken <;> simp
      · simp only [ensureValidToken, h1, he, Bool.not_true, Bool.false_eq_true, if_false]
        rw [if_neg h2]
        simp [netEvents]
  · have h1f : strTruthy c.authState.accessToken = false := by
      cases h : strTruthy c.authState.accessToken
      · rfl
      · exact absurd h h1
    simp only [ensureValidToken, h1f, Bool.not_false, if_true]
    exact netEvents_auth_le env now writeOk c

/-- C4 counterexample: the phone-challenge start (requestSmsCode) with a
non-success status and a plain-text non-JSON body does NOT fail with the
typed NalogApiError — response.json() is awaited before the ok check, so
the call rejects with the JSON SyntaxError instead. -/
theorem smsStart_nonjson_counterexample :
    (requestSmsCode demoParse respPlainText "79991234567").result =
      .error .jsonSyntaxError
    ∧ isApiFailure (requestSmsCode demoParse respPlainText "79991234567").result = false := by
  exact ⟨rfl, rfl⟩

/-- C4 (amended): every failure of an exchange that goes through the
request pipeline (identifier+password login, phone verification, refresh)
is surfaced to the caller as the typed NalogApiError, including a remote
non-success status whose body is not well-formed JSON; the phone-challenge
start surfaces a remote rejection as the typed error only when its body
parses as JSON (a non-JSON body rejects with the JSON decode error
instead); and no exchange is retried internally — each operation performs
at most one network exchange. -/
theorem exchange_failures_typed
    (parse : String → Option Json) (resp : HttpResp) (env : Env) (now : Int)
    (writeOk : Bool) (c : Client) (i p ph ch code : String) (d : Json)
    (e : NalogApiError) :
    (resp.ok = false → handleResponse parse resp =
      .error
        { message := errMessage (decodeBody parse resp.text) resp.status
          code := (decodeBody parse resp.text).getField "code"
          response := some (decodeBody parse resp.text) })
    ∧ (env (.lkfl i p) = .err e →
        (authByInn env now writeOk c i p).result = .error e)
    ∧ (env (.smsVerify (normalizePhone ph) code ch) = .err e →
        (authByPhone env now writeOk c ph ch code).result = .error e)
    ∧ (strTruthy c.authState.refreshToken = true →
        env (.tokenRefresh (c.authState.refreshToken.getD "")) = .err e →
        (refreshAccessToken env now writeOk c).result = .error e)
    ∧ (resp.ok = false → parse resp.text = some d →
        isApiFailure (requestSmsCode parse resp ph).result = true)
    ∧ (netEvents (authByInn env now writeOk c i p).events).length = 1
    ∧ (netEvents (authByPhone env now writeOk c ph ch code).events).length = 1
    ∧ (netEvents (refreshAccessToken env now writeOk c).events).length ≤ 1
    ∧ (netEvents (auth env now writeOk c).events).length ≤ 1
    ∧ (netEvents (ensureValidToken env now writeOk c).events).length ≤ 1 := by
  refine ⟨?_, ?_, ?_, ?_, ?_, ?_, ?_, ?_, ?_, ?_⟩
  · intro h; simp [handleResponse, h]
  · intro h; simp [authByInn, h]
  · intro h; simp [authByPhone, h]
  · intro h1 h2
    simp only [refreshAccessToken, h1, Bool.not_true, Bool.false_eq_true, if_false, h2]
  · intro h1 h2
    simp [requestSmsCode, h1, h2, isApiFailure]
  · rw [netEvents_authByInn]; rfl
  · rw [netEvents_authByPhone]; rfl
  · rw [netEvents_refreshAccessToken]
    cases strTruthy c.authState.refreshToken <;> simp
  · exact netEvents_auth_le env now writeOk c
  · exact netEvents_ensureValidToken_le env now writeOk c

/-- Witness for C4 (amended): a failed refresh on a client holding a
refresh token surfaces the remote rejection as the typed error, and a
failed challenge start whose body IS well-formed JSON fails with the
typed error. -/
theorem exchange_failures_typed_witness :
    (refreshAccessToken demoFailEnv 0 true demoRefreshClient).result =
      .error { message := "Invalid credentials", code := some (.str "AUTH_ERROR"), response := none }
    ∧ isApiFailure (requestSmsCode demoParse
        { ok := false, status := 400
          text := "\x7b\"code\":\"AUTH_ERROR\",\"message\":\"Invalid credentials\"\x7d" }
        "79991234567").result = true := by
  constructor
  · exact (exchange_failures_typed demoParse respPlainText demoFailEnv 0 true
      demoRefreshClient "" "" "" "" "" .null
      { message := "Invalid credentials", code := some (.str "AUTH_ERROR"), response := none }).2.2.2.1
      rfl rfl
  · exact (exchange_failures_typed demoParse
      { ok := false, status := 400
        text := "\x7b\"code\":\"AUTH_ERROR\",\"message\":\"Invalid credentials\"\x7d" }
      demoFailEnv 0 true demoRefreshClient "" "" "79991234567" "" ""
      (.obj [("code", .str "AUTH_ERROR"), ("message", .str "Invalid credentials")])
      { message := "", code := none, response := none }).2.2.2.2.1 rfl rfl

/-- A non-empty string is truthy. -/
theorem strTruthy_of_ne {s : String} (h : s ≠ "") : strTruthy (some s) = true := by
  have he : s.isEmpty = false := by
    cases he : s.isEmpty
    · rfl
    · exact absurd ((String.isEmpty_iff s).mp he) h
  simp [strTruthy, he]

/-- C1: the top-level authenticate operation dispatches in exactly this
precedence: a held refresh token forces a refresh; else configured
identifier+password perform the identifier+password exchange; else a
configured phone fails with the guidance error; else the no-credentials
configuration error — and in both failure cases Session State is
unchanged (and no network exchange happens). -/
theorem auth_dispatch_precedence (env : Env) (now : Int) (writeOk : Bool) (c : Client) :
    (strTruthy c.authState.refreshToken = true →
      auth env now writeOk c = refreshAccessToken env now writeOk c)
    ∧ (strTruthy c.authState.refreshToken = false →
        ∀ i p, c.authParams.inn = some i → c.authParams.password = some p →
          i ≠ "" → p ≠ "" →
          auth env now writeOk c = authByInn env now writeOk c i p)
    ∧ (strTruthy c.authState.refreshToken = false →
        (strTruthy c.authParams.inn && strTruthy c.authParams.password) = false →
        ∀ ph, c.authParams.phone = some ph → ph ≠ "" →
          auth env now writeOk c =
            { result := .error
                { message := authPhoneGuidanceMessage, code := none, response := none }
              client := c, events := [] })
    ∧ (strTruthy c.authState.refreshToken = false →
        (strTruthy c.authParams.inn && strTruthy c.authParams.password) = false →
        strTruthy c.authParams.phone = false →
        auth env now writeOk c =
          { result := .error
              { message := authNoParamsMessage, code := none, response := none }
            client := c, events := [] }) := by
  refine ⟨?_, ?_, ?_, ?_⟩
  · intro h; simp [auth, h]
  · intro h i p hi hp hine hpne
    have hsi : strTruthy c.authParams.inn = true := by
      rw [hi]; exact strTruthy_of_ne hine
    have hsp : strTruthy c.authParams.password = true := by
      rw [hp]; exact strTruthy_of_ne hpne
    have hgdi : c.authParams.inn.getD "" = i := by rw [hi]; rfl
    have hgdp : c.authParams.password.getD "" = p := by rw [hp]; rfl
    simp [auth, h, hsi, hsp, hgdi, hgdp]
  · intro h hip ph hph hphne
    have hsph : strTruthy c.authParams.phone = true := by
      rw [hph]; exact strTruthy_of_ne hphne
    simp [auth, h, hip, hsph]
  · intro h hip hph
    simp [auth, h, hip, hph]

/-- Witness for C1: a phone-only client gets the guidance error, a client
with nothing configured gets the no-credentials error, both with Session
State untouched; a refresh-token-holding client dispatches to refresh and
an identifier+password client to the identifier+password exchange. -/
theorem auth_dispatch_precedence_witness :
    auth demoEnv 0 true demoPhoneClient =
      { result := .error { message := authPhoneGuidanceMessage, code := none, response := none }
        client := demoPhoneClient, events := [] }
    ∧ auth demoEnv 0 true demoEmptyClient =
      { result := .error { message := authNoParamsMessage, code := none, response := none }
        client := demoEmptyClient, events := [] }
    ∧ auth demoEnv 0 true demoRefreshClient = refreshAccessToken demoEnv 0 true demoRefreshClient
    ∧ auth demoEnv 0 true demoInnClient =
        authByInn demoEnv 0 true demoInnClient "123456789012" "secret" := by
  refine ⟨?_, ?_, ?_, ?_⟩
  · exact (auth_dispatch_precedence demoEnv 0 true demoPhoneClient).2.2.1 rfl rfl
      "79991234567" rfl (by decide)
  · exact (auth_dispatch_precedence demoEnv 0 true demoEmptyClient).2.2.2 rfl rfl rfl
  · exact (auth_dispatch_precedence demoEnv 0 true demoRefreshClient).1 rfl
  · exact (auth_dispatch_precedence demoEnv 0 true demoInnClient).2.1 rfl
      "123456789012" "secret" rfl rfl (by decide) (by decide)

/-- C2: ensureValidToken invokes authenticate when no access token is
held; invokes refresh when the recorded expiry is within the 5-minute
threshold or already passed; is a no-op with zero network exchanges when
more than 5 minutes remain; and hence a second call while
Authenticated-fresh also performs zero exchanges. -/
theorem ensureValidToken_behavior (env : Env) (now : Int) (writeOk : Bool) (c : Client) :
    (strTruthy c.authState.accessToken = false →
      ensureValidToken env now writeOk c =
        { result := (auth env now writeOk c).result.map (fun _ => ())
          client := (auth env now writeOk c).client
          events := (auth env now writeOk c).events })
    ∧ (∀ t e, c.authState.accessToken = some t → t ≠ "" →
        c.authState.tokenExpireIn = some e → now ≥ e - 5 * 60 * 1000 →
        ensureValidToken env now writeOk c =
          { result := (refreshAccessToken env now writeOk c).result.map (fun _ => ())
            client := (refreshAccessToken env now writeOk c).client
            events := (refreshAccessToken env now writeOk c).events })
    ∧ (∀ t e, c.authState.accessToken = some t → t ≠ "" →
        c.authState.tokenExpireIn = some e → now < e - 5 * 60 * 1000 →
        ensureValidToken env now writeOk c = { result := .ok (), client := c, events := [] })
    ∧ (∀ t e, c.authState.accessToken = some t → t ≠ "" →
        c.authState.tokenExpireIn = some e → now < e - 5 * 60 * 1000 →
        ensureValidToken env now writeOk
            (ensureValidToken env now writeOk c).client =
          { result := .ok (), client := c, events := [] }) := by
  have fresh : ∀ t e, c.authState.accessToken = some t → t ≠ "" →
      c.authState.tokenExpireIn = some e → now < e - 5 * 60 * 1000 →
      ensureValidToken env now writeOk c = { result := .ok (), client := c, events := [] } := by
    intro t e ht htne he hlt
    have hst : strTruthy c.authState.accessToken = true := by
      rw [ht]; exact strTruthy_of_ne htne
    have hnge : ¬ now ≥ e - 5 * 60 * 1000 := not_le.mpr hlt
    simp only [ensureValidToken, hst, Bool.not_true, Bool.false_eq_true, if_false, he]
    rw [if_neg hnge]
  refine ⟨?_, ?_, fresh, ?_⟩
  · intro h
    simp [ensureValidToken, h]
  · intro t e ht htne he hge
    have hst : strTruthy c.authState.accessToken = true := by
      rw [ht]; exact strTruthy_of_ne htne
    simp only [ensureValidToken, hst, Bool.not_true, Bool.false_eq_true, if_false, he]
    rw [if_pos hge]
  · intro t e ht htne he hlt
    rw [fresh t e ht htne he hlt]
    exact fresh t e ht htne he hlt

/-- Witness for C2: a fresh client (expiry 1000 seconds away at time 0)
makes both the first and the second ensureValidToken call a no-op with
zero events. -/
theorem ensureValidToken_behavior_witness :
    ensureValidToken demoEnv 0 true demoFreshClient =
      { result := .ok (), client := demoFreshClient, events := [] }
    ∧ ensureValidToken demoEnv 0 true
        (ensureValidToken demoEnv 0 true demoFreshClient).client =
      { result := .ok (), client := demoFreshClient, events := [] } := by
  constructor
  · exact (ensureValidToken_behavior demoEnv 0 true demoFreshClient).2.2.1 "tok" 1000000
      rfl (by decide) rfl (by decide)
  · exact (ensureValidToken_behavior demoEnv 0 true demoFreshClient).2.2.2 "tok" 1000000
      rfl (by decide) rfl (by decide)

/-- C3: refresh with no refresh token held fails immediately with the
typed error and mutates nothing; for a client holding a refresh token but
no access token, authenticate performs exactly one network exchange (the
refresh) and on success overwrites access token, refresh token and expiry
with the returned values and triggers a Credential Store save; a failed
refresh exchange leaves Session State exactly as it was. -/
theorem refresh_contract (env : Env) (now : Int) (writeOk : Bool) (c : Client) :
    (strTruthy c.authState.refreshToken = false →
      refreshAccessToken env now writeOk c =
        { result := .error
            { message := "Refresh token отсутствует", code := none, response := none }
          client := c, events := [] })
    ∧ (∀ rt tr, c.authState.refreshToken = some rt → rt ≠ "" →
        c.authState.accessToken = none →
        env (.tokenRefresh rt) = .ok tr →
        auth env now writeOk c =
          { result := .ok tr
            client := { c with authState := { c.authState with
                accessToken := some tr.token
                refreshToken := some tr.refreshToken
                tokenExpireIn := some tr.tokenExpireIn } }
            events := [.net (.tokenRefresh rt),
              .save (saveTokensToFile c.saveToken writeOk
                { c.authState with
                  accessToken := some tr.token
                  refreshToken := some tr.refreshToken
                  tokenExpireIn := some tr.tokenExpireIn } c.deviceId now)] }
          ∧ netEvents (auth env now writeOk c).events = [.tokenRefresh rt]
          ∧ saveTriggered (auth env now writeOk c).events = true)
    ∧ (∀ rt e, c.authState.refreshToken = some rt → rt ≠ "" →
        env (.tokenRefresh rt) = .err e →
        refreshAccessToken env now writeOk c =
          { result := .error e, client := c, events := [.net (.tokenRefresh rt)] }) := by
  refine ⟨?_, ?_, ?_⟩
  · intro h
    simp [refreshAccessToken, h]
  · intro rt tr hrt hrtne _hat henv
    have hst : strTruthy c.authState.refreshToken = true := by
      rw [hrt]; exact strTruthy_of_ne hrtne
    have hgd : c.authState.refreshToken.getD "" = rt := by rw [hrt]; rfl
    have hmain : auth env now writeOk c =
        { result := .ok tr
          client := { c with authState := { c.authState with
              accessToken := some tr.token
              refreshToken := some tr.refreshToken
              tokenExpireIn := some tr.tokenExpireIn } }
          events := [.net (.tokenRefresh rt),
            .save (saveTokensToFile c.saveToken writeOk
              { c.authState with
                accessToken := some tr.token
                refreshToken := some tr.refreshToken
                tokenExpireIn := some tr.tokenExpireIn } c.deviceId now)] } := by
      simp [auth, refreshAccessToken, hst, hgd, henv]
    refine ⟨hmain, ?_, ?_⟩
    · rw [hmain]; rfl
    · rw [hmain]; rfl
  · intro rt e hrt hrtne henv
    have hst : strTruthy c.authState.refreshToken = true := by
      rw [hrt]; exact strTruthy_of_ne hrtne
    have hgd : c.authState.refreshToken.getD "" = rt := by rw [hrt]; rfl
    simp [refreshAccessToken, hst, hgd, henv]

/-- Witness for C3: on a refresh-token-only client, authenticate with a
succeeding environment performs exactly the refresh exchange and installs
demoTok; with a failing environment Session State is unchanged; and with
no refresh token the typed error is thrown without any mutation. -/
theorem refresh_contract_witness :
    refreshAccessToken demoEnv 0 true demoEmptyClient =
      { result := .error
          { message := "Refresh token отсутствует", code := none, response := none }
        client := demoEmptyClient, events := [] }
    ∧ netEvents (auth demoEnv 0 true demoRefreshClient).events = [.tokenRefresh "R"]
    ∧ (auth demoEnv 0 true demoRefreshClient).client.authState.accessToken = some "T1"
    ∧ refreshAccessToken demoFailEnv 0 true demoRefreshClient =
      { result := .error
          { message := "Invalid credentials", code := some (.str "AUTH_ERROR"), response := none }
        client := demoRefreshClient, events := [.net (.tokenRefresh "R")] } := by
  have h2 := (refresh_contract demoEnv 0 true demoRefreshClient).2.1 "R" demoTok
    rfl (by decide) rfl rfl
  refine ⟨?_, h2.2.1, ?_, ?_⟩
  · exact (refresh_contract demoEnv 0 true demoEmptyClient).1 rfl
  · rw [h2.1]; rfl
  · exact (refresh_contract demoFailEnv 0 true demoRefreshClient).2.2 "R"
      { message := "Invalid credentials", code := some (.str "AUTH_ERROR"), response := none }
      rfl (by decide) rfl

/-- C7: loading a persisted record with an empty refreshToken leaves
Session State unchanged from its empty default (the record is treated as
absent); loading a record with a non-empty refreshToken but an expiry in
the past yields Session State with a null access token while the refresh
token is populated from the record. -/
theorem load_tokens_behavior (now : Int) (saved : SavedTokens) (dev : String) :
    (saved.refreshToken = "" →
      loadTokensFromFile now (some saved) emptyAuthState dev = (false, emptyAuthState, dev))
    ∧ (∀ t, saved.refreshToken ≠ "" → saved.tokenExpireIn = some t → t < now →
        (loadTokensFromFile now (some saved) emptyAuthState dev).2.1.accessToken = none
        ∧ (loadTokensFromFile now (some saved) emptyAuthState dev).2.1.refreshToken =
            some saved.refreshToken
        ∧ (loadTokensFromFile now (some saved) emptyAuthState dev).1 = true) := by
  constructor
  · intro h
    have he : saved.refreshToken.isEmpty = true := (String.isEmpty_iff _).mpr h
    simp [loadTokensFromFile, he]
  · intro t hne hexp hpast
    have he : saved.refreshToken.isEmpty = false := by
      cases hc : saved.refreshToken.isEmpty
      · rfl
      · exact absurd ((String.isEmpty_iff _).mp hc) hne
    have hv : ¬ t > now := not_lt.mpr (le_of_lt hpast)
    simp [loadTokensFromFile, he, hexp, hv, emptyAuthState]

/-- Witness for C7: an empty stored refresh token is ignored entirely; a
record whose expiry (epoch 500) is already past at load time (epoch 1000)
yields a null access token but keeps its refresh token. -/
theorem load_tokens_behavior_witness :
    loadTokensFromFile 1000
        (some { accessToken := "A", refreshToken := "", tokenExpireIn := some 5000
                inn := some "I", deviceId := "D", savedAt := 0 })
        emptyAuthState "gen" = (false, emptyAuthState, "gen")
    ∧ (loadTokensFromFile 1000
        (some { accessToken := "A", refreshToken := "R", tokenExpireIn := some 500
                inn := some "I", deviceId := "D", savedAt := 0 })
        emptyAuthState "gen").2.1.accessToken = none
    ∧ (loadTokensFromFile 1000
        (some { accessToken := "A", refreshToken := "R", tokenExpireIn := some 500
                inn := some "I", deviceId := "D", savedAt := 0 })
        emptyAuthState "gen").2.1.refreshToken = some "R" := by
  have h2 := (load_tokens_behavior 1000
    { accessToken := "A", refreshToken := "R", tokenExpireIn := some 500
      inn := some "I", deviceId := "D", savedAt := 0 } "gen").2 500 (by decide) rfl (by decide)
  exact ⟨(load_tokens_behavior 1000
    { accessToken := "A", refreshToken := "", tokenExpireIn := some 5000
      inn := some "I", deviceId := "D", savedAt := 0 } "gen").1 rfl, h2.1, h2.2.1⟩

/-- C8: a failure while writing the persisted record never propagates:
every credential exchange that succeeded over the network still returns
success for every value of writeOk — in particular when the local write
raises (writeOk = false), where the save is merely logged. -/
theorem save_failure_not_propagated (env : Env) (now : Int) (writeOk : Bool) (c : Client)
    (i p ph ch code rt : String) (tr : TokenResponse) :
    (env (.lkfl i p) = .ok tr →
      (authByInn env now writeOk c i p).result = .ok tr)
    ∧ (env (.smsVerify (normalizePhone ph) code ch) = .ok tr →
        (authByPhone env now writeOk c ph ch code).result = .ok tr)
    ∧ (c.authState.refreshToken = some rt → rt ≠ "" →
        env (.tokenRefresh rt) = .ok tr →
        (refreshAccessToken env now writeOk c).result = .ok tr)
    ∧ (c.saveToken = true → writeOk = false →
        saveTokensToFile c.saveToken writeOk c.authState c.deviceId now = .failedLogged) := by
  refine ⟨?_, ?_, ?_, ?_⟩
  · intro h; simp [authByInn, h]
  · intro h; simp [authByPhone, h]
  · intro hrt hrtne h
    have hst : strTruthy c.authState.refreshToken = true := by
      rw [hrt]; exact strTruthy_of_ne hrtne
    have hgd : c.authState.refreshToken.getD "" = rt := by rw [hrt]; rfl
    simp [refreshAccessToken, hst, hgd, h]
  · intro hs hw; simp [saveTokensToFile, hs, hw]

/-- Witness for C8: with a raising file write (writeOk = false), a
successful refresh on a persistence-enabled client still returns the
token payload. -/
theorem save_failure_not_propagated_witness :
    (refreshAccessToken demoEnv 0 false
        { demoRefreshClient with saveToken := true }).result = .ok demoTok
    ∧ (authByInn demoEnv 0 false { demoRefreshClient with saveToken := true }
        "123456789012" "secret").result = .ok demoTok := by
  constructor
  · exact (save_failure_not_propagated demoEnv 0 false
      { demoRefreshClient with saveToken := true } "" "" "" "" "" "R" demoTok).2.2.1
      rfl (by decide) rfl
  · exact (save_failure_not_propagated demoEnv 0 false
      { demoRefreshClient with saveToken := true } "123456789012" "secret" "" "" "" "R"
      demoTok).1 rfl

/-- C9: installing a token triple via setTokens and then reading the
session snapshot via getAuthState returns exactly the installed access
token, refresh token and subject identifier. -/
theorem setTokens_roundtrip (c : Client) (a r i : String) :
    a ≠ "" → r ≠ "" → i ≠ "" →
    (getAuthState (setTokens c a (some r) (some i))).accessToken = some a
    ∧ (getAuthState (setTokens c a (some r) (some i))).refreshToken = some r
    ∧ (getAuthState (setTokens c a (some r) (some i))).inn = some i := by
  intro _ha hr hi
  have hre : r.isEmpty = false := by
    cases hc : r.isEmpty
    · rfl
    · exact absurd ((String.isEmpty_iff _).mp hc) hr
  have hie : i.isEmpty = false := by
    cases hc : i.isEmpty
    · rfl
    · exact absurd ((String.isEmpty_iff _).mp hc) hi
  simp [setTokens, getAuthState, hre, hie]

/-- Witness for C9: the concrete triple used by the test suite round-trips
unchanged through setTokens and getAuthState. -/
theorem setTokens_roundtrip_witness :
    (getAuthState (setTokens demoEmptyClient "test-token" (some "test-refresh")
        (some "123456789012"))).accessToken = some "test-token"
    ∧ (getAuthState (setTokens demoEmptyClient "test-token" (some "test-refresh")
        (some "123456789012"))).refreshToken = some "test-refresh"
    ∧ (getAuthState (setTokens demoEmptyClient "test-token" (some "test-refresh")
        (some "123456789012"))).inn = some "123456789012" :=
  setTokens_roundtrip demoEmptyClient "test-token" "test-refresh" "123456789012"
    (by decide) (by decide) (by decide)

/-- C10 counterexample: a Session State holding a NON-NULL access token
(the empty string, installable via setTokens) with a null expiry makes
ensureValidToken perform a refresh exchange and overwrite Session State —
the empty string is falsy, so the code takes the no-access-token branch
and calls authenticate, which finds the held refresh token.  The claim
promises zero network exchanges and an unchanged state for every non-null
access token. -/
theorem empty_token_not_fresh_counterexample :
    demoEmptyTokenClient.authState.accessToken = some ""
    ∧ demoEmptyTokenClient.authState.tokenExpireIn = none
    ∧ netEvents (ensureValidToken demoEnv 0 true demoEmptyTokenClient).events =
        [.tokenRefresh "R"]
    ∧ (ensureValidToken demoEnv 0 true demoEmptyTokenClient).client.authState.accessToken =
        some "T1" := by
  exact ⟨rfl, rfl, rfl, rfl⟩

/-- C10 (amended): for every client whose Session State holds a NON-EMPTY
access token but a null expiry timestamp, ensureValidToken performs no
network exchange and leaves Session State unchanged — a token with no
recorded expiry is treated as fresh indefinitely and never proactively
refreshed. -/
theorem no_expiry_token_fresh (env : Env) (now : Int) (writeOk : Bool) (c : Client)
    (t : String) :
    c.authState.accessToken = some t → t ≠ "" →
    c.authState.tokenExpireIn = none →
    ensureValidToken env now writeOk c = { result := .ok (), client := c, events := [] } := by
  intro ht htne he
  have hst : strTruthy c.authState.accessToken = true := by
    rw [ht]; exact strTruthy_of_ne htne
  simp [ensureValidToken, hst, he]

/-- Witness for C10 (amended): a client with a non-empty access token
installed via setTokens (hence no expiry recorded) is left untouched. -/
theorem no_expiry_token_fresh_witness :
    ensureValidToken demoEnv 0 true (setTokens demoEmptyClient "tok" none none) =
      { result := .ok ()
        client := setTokens demoEmptyClient "tok" none none
        events := [] } :=
  no_expiry_token_fresh demoEnv 0 true (setTokens demoEmptyClient "tok" none none)
    "tok" rfl (by decide) rfl

end LknpdNalog
